import Mathlib

/-!
Verification development for `src/misc/server.py`: a local development HTTP
server that (a) periodically generates a randomized election snapshot and
writes it as a CSV file and a JSON file, (b) serves static files with
no-cache / CORS headers, and (c) accepts `POST /save-embed` to persist the
request body to a fixed file. All definitions below are shallow embeddings
of that script.
-/

namespace ElectionServer

/-- A Python value stored in a snapshot row dict: the generator stores
strings (party name, color) and ints (seats, leads). -/
inductive Val where
  | str (s : String)
  | int (n : Int)
deriving DecidableEq, Repr

/-- A snapshot row: the Python dict built by `new_random_snapshot`, as an
association list in insertion order (`Party`, `Color`, then per-year keys). -/
abbrev Row := List (String × Val)

/-- A party entry of the module-level `PARTIES` list: name, display color,
base seat count. -/
structure Party where
  name : String
  color : String
  base : Int
deriving DecidableEq, Repr

/-- The module constant `PARTIES` of `server.py`. -/
def PARTIES : List Party :=
  [⟨"Alpha", "#1f77b4", 120⟩, ⟨"Beta", "#ff7f0e", 100⟩, ⟨"Gamma", "#2ca02c", 80⟩]

/-- The module constant `YEARS` of `server.py`. -/
def YEARS : List String := ["2020", "2024"]

/-- Model of `rng.randint(a, b)` (inclusive bounds): the RNG is an arbitrary
stream `g` of naturals and the `i`-th draw is mapped into `[a, b]` by
reduction modulo the size of the range. Every value of `[a, b]` is reachable
and no value outside it is. -/
def randint (g : Nat → Nat) (i : Nat) (a b : Int) : Int :=
  a + (g i % (b - a + 1).toNat : Nat)

/-- The per-year columns appended to a row by the inner loop of
`new_random_snapshot`: for each year, `delta = rng.randint(-5, 5)`,
`seats = max(0, base + delta)`, `leads = rng.randint(0, 5)`, stored under
keys `f"{y}_Seats"` and `f"{y}_Leads"`. The draw counter `i` advances by two
per year, matching the sequential `rng` calls. -/
def genCols (g : Nat → Nat) (base : Int) : List String → Nat → List (String × Val)
  | [], _ => []
  | y :: ys, i =>
    let delta := randint g i (-5) 5
    let seats := max 0 (base + delta)
    let leads := randint g (i + 1) 0 5
    (y ++ "_Seats", Val.int seats) :: (y ++ "_Leads", Val.int leads) ::
      genCols g base ys (i + 2)

/-- The outer loop of `new_random_snapshot`: one row per party, keys in
insertion order `Party`, `Color`, then the per-year columns. Each party
consumes `2 * |YEARS|` RNG draws. -/
def genRows (g : Nat → Nat) : List Party → Nat → List Row
  | [], _ => []
  | p :: ps, i =>
    (("Party", Val.str p.name) :: ("Color", Val.str p.color) :: genCols g p.base YEARS i)
      :: genRows g ps (i + 2 * YEARS.length)

/-- `new_random_snapshot()` of `server.py`, parameterized by the RNG draw
stream `g`. -/
def new_random_snapshot (g : Nat → Nat) : List Row := genRows g PARTIES 0

/-- Python dict lookup `r[k]` / `r.get(k)` on a row: first binding of the
key, if any. -/
def getVal? (r : Row) (k : String) : Option Val :=
  (List.find? (fun kv => kv.1 == k) r).map (fun kv => kv.2)

/-- The `headers` list of `write_csv_and_json`:
`["Party", "Color"] + [f"{y}_{suf}" for y in YEARS for suf in ("Seats", "Leads")]`. -/
def headers : List String :=
  ["Party", "Color"] ++ YEARS.flatMap (fun y => [y ++ "_Seats", y ++ "_Leads"])

/-- Stringification applied by `csv.DictWriter` to each cell (`str(value)`). -/
def cellStr : Val → String
  | .str s => s
  | .int n => toString n

/-- One CSV data record as written by
`writer.writerow({h: r.get(h, "") for h in headers})`: a cell per header, the
empty string when the key is absent. -/
def csvRecord (r : Row) : List String :=
  headers.map (fun h =>
    match getVal? r h with
    | some v => cellStr v
    | none => "")

/-- The CSV header line written by `writer.writeheader()`. -/
def csvHeaderLine : String := String.intercalate "," headers

/-- The CSV file as a list of lines: header line then one data line per row.
None of the written cells contains a comma or quote, so `DictWriter` emits
exactly the comma-joined cells. -/
def csvFile (rows : List Row) : List String :=
  csvHeaderLine :: rows.map (fun r => String.intercalate "," (csvRecord r))

/-- The data records of the CSV file (the parsed cells of each data line). -/
def csvRecords (rows : List Row) : List (List String) := rows.map csvRecord

/-- One element of a party's `yearly_results` array in the JSON file. -/
structure YearlyResult where
  year : String
  seats : Int
  leads : Int
deriving DecidableEq, Repr

/-- One element of the `parties` array in the JSON file:
`{"party": r["Party"], "yearly_results": [...]}`. -/
structure PartyEntry where
  party : Val
  yearly_results : List YearlyResult
deriving DecidableEq, Repr

/-- The whole JSON document `{"years": ..., "parties": ...}`. -/
structure ElectionData where
  years : List String
  parties : List PartyEntry
deriving DecidableEq, Repr

/-- Value of a decimal digit character, `none` for a non-digit. -/
def digitVal? (c : Char) : Option Nat :=
  if '0' ≤ c ∧ c ≤ '9' then some (c.toNat - '0'.toNat) else none

/-- Value of a non-empty run of decimal digits in which single underscores
may appear between two digits (the `digitpart` of the Python integer
literal grammar accepted by `int()`); `none` when empty or malformed
(leading, trailing or doubled underscore, non-digit). -/
def digitsVal? : List Char → Option Nat
  | [] => none
  | c :: cs =>
    match digitVal? c with
    | some d => go cs d
    | none => none
where go : List Char → Nat → Option Nat
  | [], acc => some acc
  | '_' :: c :: cs, acc =>
    match digitVal? c with
    | some d => go cs (10 * acc + d)
    | none => none
  | ['_'], _ => none
  | c :: cs, acc =>
    match digitVal? c with
    | some d => go cs (10 * acc + d)
    | none => none

/-- The characters `int()` strips as surrounding whitespace, restricted to
the latin-1 range that HTTP header values decode into. -/
def pyWS (c : Char) : Bool :=
  c == ' ' || c == '\t' || c == '\n' || c == '\x0b' || c == '\x0c' || c == '\r' ||
  c == '\x85' || c == '\xa0'

/-- `str.strip()`-style removal of leading and trailing whitespace. -/
def pyStrip (cs : List Char) : List Char :=
  ((cs.dropWhile pyWS).reverse.dropWhile pyWS).reverse

/-- Model of Python `int(s)` on a header-value string: optional surrounding
whitespace, an optional `+` or `-` sign, then decimal digits with single
underscores allowed between digits; `none` models the `ValueError` raised
on anything else. Header values reach the handler decoded as latin-1, and
on latin-1 text this is exactly the `int()` grammar: the whitespace set
above lists the latin-1 characters `int()` strips, and latin-1 contains no
decimal digits or signs beyond the ASCII ones. -/
def pyInt? (s : String) : Option Int :=
  match pyStrip s.data with
  | '-' :: rest => (digitsVal? rest).map (fun n => -(n : Int))
  | '+' :: rest => (digitsVal? rest).map Int.ofNat
  | cs => (digitsVal? cs).map Int.ofNat

/-- Python `int(v)` on a row value as used by the JSON writer:
identity on ints, decimal parse on strings (`none` models `ValueError`). -/
def valInt? : Val → Option Int
  | .int n => some n
  | .str s => pyInt? s

/-- The JSON document built by `write_csv_and_json`:
`party` is `r["Party"]` (`none` models the `KeyError` when absent), and each
yearly result is `int(r.get(f"{y}_Seats", 0))` / `int(r.get(f"{y}_Leads", 0))`. -/
def jsonOfRows (rows : List Row) : Option ElectionData := do
  let parties ← rows.mapM (fun r => do
    let pv ← getVal? r "Party"
    let yrs ← YEARS.mapM (fun y => do
      let s ← valInt? ((getVal? r (y ++ "_Seats")).getD (Val.int 0))
      let l ← valInt? ((getVal? r (y ++ "_Leads")).getD (Val.int 0))
      pure (⟨y, s, l⟩ : YearlyResult))
    pure (⟨pv, yrs⟩ : PartyEntry))
  pure ⟨YEARS, parties⟩

/-- The (party, year, seats, leads) tuples read back from the CSV data
records: the party cell, and per configured year the two numeric cells
parsed back as integers. -/
def csvTuples (recs : List (List String)) : List (String × String × Int × Int) :=
  recs.flatMap (fun rec =>
    (List.range YEARS.length).map (fun i =>
      (rec.getD 0 "", YEARS.getD i "",
        (pyInt? (rec.getD (2 + 2 * i) "")).getD 0,
        (pyInt? (rec.getD (3 + 2 * i) "")).getD 0)))

/-- The (party, year, seats, leads) tuples read back from the JSON
document's `parties` / `yearly_results`. -/
def jsonTuples (d : ElectionData) : List (String × String × Int × Int) :=
  d.parties.flatMap (fun p =>
    p.yearly_results.map (fun yr => (cellStr p.party, yr.year, yr.seats, yr.leads)))

/-! ### HTTP layer model -/

/-- The fixed output path of `POST /save-embed`
(`ROOT / "superdynamic - embed.html"`), relative to the server root. -/
def OUT_PATH : String := "superdynamic - embed.html"

/-- The served directory: association list path ↦ file bytes. -/
abbrev Fs := List (String × List Nat)

/-- Read a file from the store. -/
def fsRead (fs : Fs) (p : String) : Option (List Nat) :=
  (List.find? (fun kv => kv.1 == p) fs).map (fun kv => kv.2)

/-- `out_path.write_bytes(data)`: replace the file at `p` with `bs`. -/
def fsWrite (fs : Fs) (p : String) (bs : List Nat) : Fs :=
  (p, bs) :: List.filter (fun kv => !(kv.1 == p)) fs

/-- An incoming HTTP request: method, path, header list, and the body bytes
available on `rfile`. -/
structure Request where
  method : String
  path : String
  headers : List (String × String)
  body : List Nat
deriving DecidableEq, Repr

/-- The body of an emitted response: a served file, one of the two JSON
payloads of the save endpoint (`{"ok": true, "path": ...}` respectively
`{"ok": false, "error": ...}`, the latter carrying the unparseable
Content-Length literal named by the `ValueError` message), or the HTML page
of `send_error`. -/
inductive Body where
  | file (bs : List Nat)
  | saveOk (path : String)
  | saveErr (badLiteral : String)
  | errorPage (code : Nat)
deriving DecidableEq, Repr

/-- An emitted HTTP response: status, headers in send order, body. -/
structure Response where
  status : Nat
  headers : List (String × String)
  body : Body
deriving DecidableEq, Repr

/-- ASCII-lowercased character code, for case-insensitive header-name
comparison. -/
def lowerCode (c : Char) : Nat :=
  if 65 ≤ c.toNat ∧ c.toNat ≤ 90 then c.toNat + 32 else c.toNat

/-- Case-insensitive header-name equality: `email.message.Message.get`
compares `name.lower()`. ASCII case folding is extensionally exact for the
ASCII key `Content-Length`, the only key the handler looks up: no latin-1
header name other than a case variant of `Content-Length` lowercases to
`content-length`. -/
def headerNameEq (a b : String) : Bool :=
  a.data.map lowerCode == b.data.map lowerCode

/-- `self.headers.get(k, d)`: first binding whose name matches the key
case-insensitively, default `d`. -/
def headerGetD (hs : List (String × String)) (k d : String) : String :=
  match List.find? (fun kv => headerNameEq kv.1 k) hs with
  | some kv => kv.2
  | none => d

/-- Python `s.rstrip("/")`: remove every trailing slash. -/
def rstripSlash (s : String) : String :=
  String.mk ((s.data.reverse.dropWhile (fun c => c == '/')).reverse)

/-- The three headers `NoCacheRequestHandler.end_headers` appends to every
response before terminating the header block. -/
def noCacheHeaders : List (String × String) :=
  [("Cache-Control", "no-store, no-cache, must-revalidate, max-age=0"),
    ("Pragma", "no-cache"),
    ("Access-Control-Allow-Origin", "*")]

/-- A finished response: the handler's own headers followed by the
`end_headers` additions (the standard `Server` / `Date` headers of the
library layer are elided). -/
def mkResponse (status : Nat) (hs : List (String × String)) (b : Body) : Response :=
  ⟨status, hs ++ noCacheHeaders, b⟩

/-- The rendered JSON text of the save endpoint payloads (`json.dumps` of the
success / failure dict; string escaping elided, the payloads written here
contain no characters needing escapes), used for the `Content-Length`
response header. -/
def renderPayload : Body → String
  | .file _ => ""
  | .saveOk p => "\x7b\"ok\": true, \"path\": \"" ++ p ++ "\"\x7d"
  | .saveErr lit =>
    "\x7b\"ok\": false, \"error\": \"invalid literal for int() with base 10: " ++ lit ++ "\"\x7d"
  | .errorPage _ => ""

/-- `SimpleHTTPRequestHandler.send_error`: an error status with an HTML
error page, emitted through the overridden `end_headers`. -/
def send_error (code : Nat) : Response :=
  mkResponse code [("Content-Type", "text/html;charset=utf-8")] (Body.errorPage code)

/-- `NoCacheRequestHandler.do_POST`: on `/save-embed` (trailing slashes
stripped), parse `Content-Length` (default `"0"`), read that many body bytes
when positive, write them to `OUT_PATH` and answer 200 with the success
payload; a `ValueError` from `int()` is caught and answered 500 with the
error payload, nothing written. Every other path gets `send_error(404)`. -/
def do_POST (fs : Fs) (req : Request) : Fs × Response :=
  if rstripSlash req.path == "/save-embed" then
    match pyInt? (headerGetD req.headers "Content-Length" "0") with
    | none =>
      let b := Body.saveErr (headerGetD req.headers "Content-Length" "0")
      (fs, mkResponse 500 [("Content-Type", "application/json; charset=utf-8"),
        ("Content-Length", toString (renderPayload b).length)] b)
    | some length =>
      let data := if 0 < length then req.body.take length.toNat else []
      let b := Body.saveOk OUT_PATH
      (fsWrite fs OUT_PATH data,
        mkResponse 200 [("Content-Type", "application/json; charset=utf-8"),
          ("Content-Length", toString (renderPayload b).length)] b)
  else
    (fs, send_error 404)

/-- Modelled from the spec: GET/HEAD static file serving is performed by the
base class `http.server.SimpleHTTPRequestHandler`, which is not part of this
repository. Per the spec it resolves the path against the root directory and
serves the file (200) or answers not-found (404), every response finished
through the overridden `end_headers`. -/
def do_GET (fs : Fs) (path : String) : Response :=
  match fsRead fs path with
  | some bs => mkResponse 200 [("Content-Type", "application/octet-stream")] (Body.file bs)
  | none => send_error 404

/-- Dispatch of one request by `NoCacheRequestHandler`: `do_POST` for POST
(possibly updating the file store), static serving for GET/HEAD. -/
def handle (fs : Fs) (req : Request) : Fs × Response :=
  if req.method == "POST" then do_POST fs req else (fs, do_GET fs req.path)

/-! ### Background updater loop models -/

/-- The `while not stop_evt.wait(interval)` loop of `run_updater`,
abstracted: `ok k` says whether generation cycle k (snapshot plus both
writes) succeeds, `stop k` whether the wait before loop iteration k observes
the stop signal, `fuel` bounds the iterations examined. A failing loop cycle
is caught by the `try/except` and only logged. Returns the attempted cycles
(index, succeeded) and whether the thread crashed. -/
def updaterLoop (ok stop : Nat → Bool) : Nat → Nat → List (Nat × Bool) × Bool
  | 0, _ => ([], false)
  | fuel + 1, k =>
    if stop k then ([], false)
    else
      let rest := updaterLoop ok stop fuel (k + 1)
      ((k, ok k) :: rest.1, rest.2)

/-- `run_updater`, abstracted as above. Cycle 0 is the initial write, which
the source performs before the loop and outside any `try/except`: its
failure propagates out of the thread (crash flag `true`) and no loop
iteration runs. -/
def run_updater (ok stop : Nat → Bool) (fuel : Nat) : List (Nat × Bool) × Bool :=
  if ok 0 then
    let rest := updaterLoop ok stop fuel 1
    ((0, true) :: rest.1, rest.2)
  else ([(0, false)], true)

/-- Model of `threading.Event.wait(interval)` called at absolute time `now`
with the event set at time `tset` (`none` = never): returns whether the
signal was observed, and the time the call returns — `max now tset` when the
signal arrives before the deadline, the deadline `now + interval` otherwise. -/
def eventWait (tset : Option Nat) (now interval : Nat) : Bool × Nat :=
  match tset with
  | none => (false, now + interval)
  | some t => if t < now + interval then (true, max now t) else (false, now + interval)

/-- Timed model of the same loop: `dur k` is the duration of generation
cycle k. Returns the start times of the attempted cycles and the time at
which the loop exits (`fuel` bounds the iterations examined). -/
def timedLoop (dur : Nat → Nat) (tset : Option Nat) (interval : Nat) :
    Nat → Nat → Nat → List Nat × Nat
  | 0, _, now => ([], now)
  | fuel + 1, k, now =>
    let w := eventWait tset now interval
    if w.1 then ([], w.2)
    else
      let rest := timedLoop dur tset interval fuel (k + 1) (w.2 + dur k)
      (w.2 :: rest.1, rest.2)

end ElectionServer

namespace ElectionServer

/-! ### Helper lemmas for the generator and serialization claims -/

/-- Decimal round trip for small naturals, by evaluation. -/
theorem pyInt?_toString_ofNat :
    ∀ m : Nat, m < 131 → pyInt? (toString (Int.ofNat m)) = some (Int.ofNat m) := by
  decide

/-- Decimal round trip: parsing the rendered form of a small non-negative
integer returns the integer. -/
theorem pyInt?_toString (n : Int) (h0 : 0 ≤ n) (h1 : n ≤ 130) :
    pyInt? (toString n) = some n := by
  have hm : n = Int.ofNat n.toNat := (Int.toNat_of_nonneg h0).symm
  rw [hm]
  exact pyInt?_toString_ofNat n.toNat (by omega)

/-- Decimal round trip, `getD` form. -/
theorem pyInt?_toString_getD (n : Int) (h0 : 0 ≤ n) (h1 : n ≤ 130) :
    (pyInt? (toString n)).getD 0 = n := by
  rw [pyInt?_toString n h0 h1]; rfl

/-- A `randint(-5, 5)` draw lies in `[-5, 5]` whatever the stream supplies. -/
theorem randint_neg5_5 (g : Nat → Nat) (i : Nat) :
    -5 ≤ randint g i (-5) 5 ∧ randint g i (-5) 5 ≤ 5 := by
  simp only [randint, show ((5:Int) - -5 + 1).toNat = 11 from rfl]
  omega

/-- A `randint(0, 5)` draw lies in `[0, 5]` whatever the stream supplies. -/
theorem randint_0_5 (g : Nat → Nat) (i : Nat) :
    0 ≤ randint g i 0 5 ∧ randint g i 0 5 ≤ 5 := by
  simp only [randint, show ((5:Int) - 0 + 1).toNat = 6 from rfl]
  omega

/-- C1: for every snapshot produced by `new_random_snapshot`, the CSV data
records and the JSON document written by `write_csv_and_json` describe the
same list (hence set) of (party, year, seats, leads) tuples: the JSON build
succeeds and reading the tuples back from the CSV cells equals reading them
from the JSON parties / yearly_results. -/
theorem csv_json_describe_same_tuples (g : Nat → Nat) :
    ∃ d, jsonOfRows (new_random_snapshot g) = some d ∧
      csvTuples (csvRecords (new_random_snapshot g)) = jsonTuples d := by
  refine ⟨_, rfl, ?_⟩
  show
    [("Alpha", "2020", (pyInt? (toString (max 0 (120 + randint g 0 (-5) 5)))).getD 0,
        (pyInt? (toString (randint g 1 0 5))).getD 0),
      ("Alpha", "2024", (pyInt? (toString (max 0 (120 + randint g 2 (-5) 5)))).getD 0,
        (pyInt? (toString (randint g 3 0 5))).getD 0),
      ("Beta", "2020", (pyInt? (toString (max 0 (100 + randint g 4 (-5) 5)))).getD 0,
        (pyInt? (toString (randint g 5 0 5))).getD 0),
      ("Beta", "2024", (pyInt? (toString (max 0 (100 + randint g 6 (-5) 5)))).getD 0,
        (pyInt? (toString (randint g 7 0 5))).getD 0),
      ("Gamma", "2020", (pyInt? (toString (max 0 (80 + randint g 8 (-5) 5)))).getD 0,
        (pyInt? (toString (randint g 9 0 5))).getD 0),
      ("Gamma", "2024", (pyInt? (toString (max 0 (80 + randint g 10 (-5) 5)))).getD 0,
        (pyInt? (toString (randint g 11 0 5))).getD 0)] =
    [("Alpha", "2020", max 0 (120 + randint g 0 (-5) 5), randint g 1 0 5),
      ("Alpha", "2024", max 0 (120 + randint g 2 (-5) 5), randint g 3 0 5),
      ("Beta", "2020", max 0 (100 + randint g 4 (-5) 5), randint g 5 0 5),
      ("Beta", "2024", max 0 (100 + randint g 6 (-5) 5), randint g 7 0 5),
      ("Gamma", "2020", max 0 (80 + randint g 8 (-5) 5), randint g 9 0 5),
      ("Gamma", "2024", max 0 (80 + randint g 10 (-5) 5), randint g 11 0 5)]
  rw [pyInt?_toString_getD, pyInt?_toString_getD, pyInt?_toString_getD, pyInt?_toString_getD,
    pyInt?_toString_getD, pyInt?_toString_getD, pyInt?_toString_getD, pyInt?_toString_getD,
    pyInt?_toString_getD, pyInt?_toString_getD, pyInt?_toString_getD, pyInt?_toString_getD]
  all_goals simp only [randint, show ((5:Int) - -5 + 1).toNat = 11 from rfl,
    show ((5:Int) - 0 + 1).toNat = 6 from rfl]
  all_goals omega

/-- C2: in every generated snapshot, regardless of the random draws, every
per-year seat count equals `max 0 (base + delta)` for a delta in `[-5, 5]`
(hence is non-negative) and every per-year leads count is an integer in
`[0, 5]`. -/
theorem snapshot_seats_leads_in_range (g : Nat → Nat) (r : Row)
    (hr : r ∈ new_random_snapshot g) (y : String) (hy : y ∈ YEARS) :
    ∃ p ∈ PARTIES, ∃ delta : Int, -5 ≤ delta ∧ delta ≤ 5 ∧
      getVal? r (y ++ "_Seats") = some (Val.int (max 0 (p.base + delta))) ∧
      (0 : Int) ≤ max 0 (p.base + delta) ∧
      ∃ l : Int, 0 ≤ l ∧ l ≤ 5 ∧ getVal? r (y ++ "_Leads") = some (Val.int l) := by
  simp only [new_random_snapshot, genRows, genCols, PARTIES, YEARS, List.mem_cons,
    List.not_mem_nil, or_false] at hr hy
  rcases hr with rfl | rfl | rfl <;> rcases hy with rfl | rfl
  · exact ⟨⟨"Alpha", "#1f77b4", 120⟩, by decide, randint g 0 (-5) 5,
      (randint_neg5_5 g 0).1, (randint_neg5_5 g 0).2, rfl, le_max_left _ _,
      randint g 1 0 5, (randint_0_5 g 1).1, (randint_0_5 g 1).2, rfl⟩
  · exact ⟨⟨"Alpha", "#1f77b4", 120⟩, by decide, randint g 2 (-5) 5,
      (randint_neg5_5 g 2).1, (randint_neg5_5 g 2).2, rfl, le_max_left _ _,
      randint g 3 0 5, (randint_0_5 g 3).1, (randint_0_5 g 3).2, rfl⟩
  · exact ⟨⟨"Beta", "#ff7f0e", 100⟩, by decide, randint g 4 (-5) 5,
      (randint_neg5_5 g 4).1, (randint_neg5_5 g 4).2, rfl, le_max_left _ _,
      randint g 5 0 5, (randint_0_5 g 5).1, (randint_0_5 g 5).2, rfl⟩
  · exact ⟨⟨"Beta", "#ff7f0e", 100⟩, by decide, randint g 6 (-5) 5,
      (randint_neg5_5 g 6).1, (randint_neg5_5 g 6).2, rfl, le_max_left _ _,
      randint g 7 0 5, (randint_0_5 g 7).1, (randint_0_5 g 7).2, rfl⟩
  · exact ⟨⟨"Gamma", "#2ca02c", 80⟩, by decide, randint g 8 (-5) 5,
      (randint_neg5_5 g 8).1, (randint_neg5_5 g 8).2, rfl, le_max_left _ _,
      randint g 9 0 5, (randint_0_5 g 9).1, (randint_0_5 g 9).2, rfl⟩
  · exact ⟨⟨"Gamma", "#2ca02c", 80⟩, by decide, randint g 10 (-5) 5,
      (randint_neg5_5 g 10).1, (randint_neg5_5 g 10).2, rfl, le_max_left _ _,
      randint g 11 0 5, (randint_0_5 g 11).1, (randint_0_5 g 11).2, rfl⟩

/-- Witness for C2 at the all-zero draw stream and the Alpha row, year 2020. -/
theorem snapshot_seats_leads_in_range_witness :
    ∃ p ∈ PARTIES, ∃ delta : Int, -5 ≤ delta ∧ delta ≤ 5 ∧
      getVal? [("Party", Val.str "Alpha"), ("Color", Val.str "#1f77b4"),
          ("2020_Seats", Val.int 115), ("2020_Leads", Val.int 0),
          ("2024_Seats", Val.int 115), ("2024_Leads", Val.int 0)]
        ("2020" ++ "_Seats") = some (Val.int (max 0 (p.base + delta))) ∧
      (0 : Int) ≤ max 0 (p.base + delta) ∧
      ∃ l : Int, 0 ≤ l ∧ l ≤ 5 ∧
        getVal? [("Party", Val.str "Alpha"), ("Color", Val.str "#1f77b4"),
            ("2020_Seats", Val.int 115), ("2020_Leads", Val.int 0),
            ("2024_Seats", Val.int 115), ("2024_Leads", Val.int 0)]
          ("2020" ++ "_Leads") = some (Val.int l) :=
  snapshot_seats_leads_in_range (fun _ => 0)
    [("Party", Val.str "Alpha"), ("Color", Val.str "#1f77b4"),
      ("2020_Seats", Val.int 115), ("2020_Leads", Val.int 0),
      ("2024_Seats", Val.int 115), ("2024_Leads", Val.int 0)]
    (by decide) "2020" (by decide)

/-- C6: the first line of the CSV file is always exactly
`Party,Color,2020_Seats,2020_Leads,2024_Seats,2024_Leads`, independent of the
random content, followed by exactly one data row per party, and every header
column is present in every generated row. -/
theorem csv_header_and_rows (g : Nat → Nat) :
    (csvFile (new_random_snapshot g)).head? =
      some "Party,Color,2020_Seats,2020_Leads,2024_Seats,2024_Leads" ∧
    (csvFile (new_random_snapshot g)).length = 1 + PARTIES.length ∧
    ∀ r ∈ new_random_snapshot g, (csvRecord r).length = headers.length ∧
      ∀ h ∈ headers, (getVal? r h).isSome = true := by
  refine ⟨rfl, rfl, ?_⟩
  intro r hr
  simp only [new_random_snapshot, genRows, genCols, PARTIES, YEARS, List.mem_cons,
    List.not_mem_nil, or_false] at hr
  have hh : ∀ h ∈ headers, h = "Party" ∨ h = "Color" ∨ h = "2020_Seats" ∨ h = "2020_Leads" ∨
      h = "2024_Seats" ∨ h = "2024_Leads" := by decide
  rcases hr with rfl | rfl | rfl <;>
    refine ⟨rfl, fun h hmem => ?_⟩ <;>
    rcases hh h hmem with rfl | rfl | rfl | rfl | rfl | rfl <;> rfl

/-- Witness for C6 at the all-zero draw stream. -/
theorem csv_header_and_rows_witness :
    (csvFile (new_random_snapshot (fun _ => 0))).head? =
      some "Party,Color,2020_Seats,2020_Leads,2024_Seats,2024_Leads" ∧
    (csvFile (new_random_snapshot (fun _ => 0))).length = 1 + PARTIES.length ∧
    ∀ r ∈ new_random_snapshot (fun _ => 0), (csvRecord r).length = headers.length ∧
      ∀ h ∈ headers, (getVal? r h).isSome = true :=
  csv_header_and_rows (fun _ => 0)

end ElectionServer

namespace ElectionServer

/-! ### Helper lemmas for the HTTP and loop claims -/

/-- Every response dispatched by the handler is finished through
`end_headers`. -/
theorem handle_is_mkResponse (fs : Fs) (req : Request) :
    ∃ st hs b, (handle fs req).2 = mkResponse st hs b := by
  unfold handle do_POST do_GET send_error
  repeat' split
  all_goals exact ⟨_, _, _, rfl⟩

/-- Reading back a freshly written file returns exactly the written bytes. -/
theorem fsRead_fsWrite (fs : Fs) (p : String) (bs : List Nat) :
    fsRead (fsWrite fs p bs) p = some bs := by
  simp [fsRead, fsWrite, List.find?]

/-- Failures inside the `while` loop never set the crash flag, and which
cycles are attempted does not depend on which cycles fail. -/
theorem updaterLoop_contained (ok stop : Nat → Bool) :
    ∀ fuel k, (updaterLoop ok stop fuel k).2 = false ∧
      (updaterLoop ok stop fuel k).1.map Prod.fst =
        (updaterLoop (fun _ => true) stop fuel k).1.map Prod.fst := by
  intro fuel
  induction fuel with
  | zero => intro k; exact ⟨rfl, rfl⟩
  | succ n ih =>
    intro k
    cases h : stop k with
    | true => simp [updaterLoop, h]
    | false => simp [updaterLoop, h, (ih (k + 1)).1, (ih (k + 1)).2]

/-- With the stop signal set at time `t`, every generation cycle the timed
loop attempts starts no later than `t`. -/
theorem timedLoop_starts_le (dur : Nat → Nat) (t interval : Nat) :
    ∀ fuel k now, ∀ s ∈ (timedLoop dur (some t) interval fuel k now).1, s ≤ t := by
  intro fuel
  induction fuel with
  | zero => intro k now s hs; simp [timedLoop] at hs
  | succ n ih =>
    intro k now s hs
    rcases Nat.lt_or_ge t (now + interval) with h | h
    · simp [timedLoop, eventWait, h] at hs
    · have h' : ¬ t < now + interval := by omega
      simp [timedLoop, eventWait, h'] at hs
      rcases hs with rfl | hs
      · omega
      · exact ih _ _ s hs

/-! ### Claim theorems for the HTTP layer and the updater loop -/

/-- C4: every response emitted by the server — any method, path and status,
error responses included — carries the no-cache headers
(`Cache-Control`, `Pragma`) and the permissive CORS header. -/
theorem every_response_no_cache_cors (fs : Fs) (req : Request) :
    ("Cache-Control", "no-store, no-cache, must-revalidate, max-age=0")
        ∈ (handle fs req).2.headers ∧
    ("Pragma", "no-cache") ∈ (handle fs req).2.headers ∧
    ("Access-Control-Allow-Origin", "*") ∈ (handle fs req).2.headers := by
  obtain ⟨st, hs, b, h⟩ := handle_is_mkResponse fs req
  rw [h]
  simp [mkResponse, noCacheHeaders]

/-- C5: a POST of body `B` to `/save-embed` whose `Content-Length` header
parses to `|B|` writes exactly `B` to the fixed output file (overwriting any
previous contents), answers 200 with the `{ok: true, path}` payload, and a
subsequent GET of that file serves exactly `B`. -/
theorem save_embed_roundtrip (fs : Fs) (hs : List (String × String)) (B : List Nat)
    (hcl : pyInt? (headerGetD hs "Content-Length" "0") = some (Int.ofNat B.length)) :
    (handle fs ⟨"POST", "/save-embed", hs, B⟩).1 = fsWrite fs OUT_PATH B ∧
    (handle fs ⟨"POST", "/save-embed", hs, B⟩).2.status = 200 ∧
    (handle fs ⟨"POST", "/save-embed", hs, B⟩).2.body = Body.saveOk OUT_PATH ∧
    fsRead (handle fs ⟨"POST", "/save-embed", hs, B⟩).1 OUT_PATH = some B ∧
    (do_GET (handle fs ⟨"POST", "/save-embed", hs, B⟩).1 OUT_PATH).status = 200 ∧
    (do_GET (handle fs ⟨"POST", "/save-embed", hs, B⟩).1 OUT_PATH).body = Body.file B := by
  simp only [handle, do_POST, show (("POST" : String) == "POST") = true from rfl,
    show (rstripSlash "/save-embed" == "/save-embed") = true from by decide, if_true, hcl]
  rcases Nat.eq_zero_or_pos B.length with hB | hB
  · have hBnil : B = [] := List.length_eq_zero.mp hB
    subst hBnil
    simp [fsRead_fsWrite, do_GET, mkResponse]
  · have hpos : (0 : Int) < Int.ofNat B.length := Int.ofNat_pos.mpr hB
    simp [hpos, hB, Int.toNat_ofNat, List.take_length, fsRead_fsWrite, do_GET, mkResponse]

/-- Witness for C5: posting the two bytes `[104, 105]` with header
`Content-Length: 2` to an empty store. -/
theorem save_embed_roundtrip_witness :
    (handle [] ⟨"POST", "/save-embed", [("Content-Length", "2")], [104, 105]⟩).1 =
      fsWrite [] OUT_PATH [104, 105] ∧
    (handle [] ⟨"POST", "/save-embed", [("Content-Length", "2")], [104, 105]⟩).2.status = 200 ∧
    (handle [] ⟨"POST", "/save-embed", [("Content-Length", "2")], [104, 105]⟩).2.body =
      Body.saveOk OUT_PATH ∧
    fsRead (handle [] ⟨"POST", "/save-embed", [("Content-Length", "2")], [104, 105]⟩).1 OUT_PATH =
      some [104, 105] ∧
    (do_GET (handle [] ⟨"POST", "/save-embed", [("Content-Length", "2")], [104, 105]⟩).1
        OUT_PATH).status = 200 ∧
    (do_GET (handle [] ⟨"POST", "/save-embed", [("Content-Length", "2")], [104, 105]⟩).1
        OUT_PATH).body = Body.file [104, 105] :=
  save_embed_roundtrip [] [("Content-Length", "2")] [104, 105] (by decide)

/-- C8: a POST to `/save-embed/` (trailing slash) produces exactly the same
store update and response as the identical POST to `/save-embed`. -/
theorem save_embed_trailing_slash (fs : Fs) (hs : List (String × String)) (B : List Nat) :
    handle fs ⟨"POST", "/save-embed/", hs, B⟩ = handle fs ⟨"POST", "/save-embed", hs, B⟩ := rfl

/-- C9: a POST whose path (after stripping trailing slashes) is not
`/save-embed` gets a 404 response and writes nothing. -/
theorem post_other_path_not_found (fs : Fs) (req : Request) (hm : req.method = "POST")
    (hp : rstripSlash req.path ≠ "/save-embed") :
    (handle fs req).1 = fs ∧ (handle fs req).2 = send_error 404 ∧
    (handle fs req).2.status = 404 := by
  have h1 : (req.method == "POST") = true := by simp [hm]
  have h2 : (rstripSlash req.path == "/save-embed") = false := beq_eq_false_iff_ne.mpr hp
  simp [handle, do_POST, h1, h2, send_error, mkResponse]

/-- Witness for C9: a POST to `/unknown`. -/
theorem post_other_path_not_found_witness :
    (handle [] ⟨"POST", "/unknown", [], []⟩).1 = [] ∧
    (handle [] ⟨"POST", "/unknown", [], []⟩).2 = send_error 404 ∧
    (handle [] ⟨"POST", "/unknown", [], []⟩).2.status = 404 :=
  post_other_path_not_found [] ⟨"POST", "/unknown", [], []⟩ rfl (by decide)

/-- C10: the `/save-embed` handler persists exactly the first
`Content-Length` bytes of the body when that header parses positive; when
the header is absent or `"0"` (`headerGetD` returns the default or literal
`"0"`) it writes an empty file and still answers 200 with the success
payload; when the header is present but unparseable, it answers 500 with the
`{ok: false, error}` payload and writes nothing. -/
theorem save_embed_content_length_cases :
    (∀ (fs : Fs) (hs : List (String × String)) (B : List Nat) (n : Int),
      pyInt? (headerGetD hs "Content-Length" "0") = some n → 0 < n →
      (do_POST fs ⟨"POST", "/save-embed", hs, B⟩).1 = fsWrite fs OUT_PATH (B.take n.toNat) ∧
      fsRead (do_POST fs ⟨"POST", "/save-embed", hs, B⟩).1 OUT_PATH = some (B.take n.toNat) ∧
      (do_POST fs ⟨"POST", "/save-embed", hs, B⟩).2.status = 200 ∧
      (do_POST fs ⟨"POST", "/save-embed", hs, B⟩).2.body = Body.saveOk OUT_PATH) ∧
    (∀ (fs : Fs) (hs : List (String × String)) (B : List Nat),
      headerGetD hs "Content-Length" "0" = "0" →
      (do_POST fs ⟨"POST", "/save-embed", hs, B⟩).1 = fsWrite fs OUT_PATH [] ∧
      fsRead (do_POST fs ⟨"POST", "/save-embed", hs, B⟩).1 OUT_PATH = some [] ∧
      (do_POST fs ⟨"POST", "/save-embed", hs, B⟩).2.status = 200 ∧
      (do_POST fs ⟨"POST", "/save-embed", hs, B⟩).2.body = Body.saveOk OUT_PATH) ∧
    (∀ (fs : Fs) (hs : List (String × String)) (B : List Nat),
      pyInt? (headerGetD hs "Content-Length" "0") = none →
      (do_POST fs ⟨"POST", "/save-embed", hs, B⟩).1 = fs ∧
      (do_POST fs ⟨"POST", "/save-embed", hs, B⟩).2.status = 500 ∧
      (do_POST fs ⟨"POST", "/save-embed", hs, B⟩).2.body =
        Body.saveErr (headerGetD hs "Content-Length" "0")) := by
  refine ⟨?_, ?_, ?_⟩
  · intro fs hs B n hcl hn
    simp only [do_POST, show (rstripSlash "/save-embed" == "/save-embed") = true from by decide,
      if_true, hcl]
    simp [hn, fsRead_fsWrite, mkResponse]
  · intro fs hs B hcl
    simp only [do_POST, show (rstripSlash "/save-embed" == "/save-embed") = true from by decide,
      if_true, hcl]
    simp [show pyInt? "0" = some 0 from by decide, fsRead_fsWrite, mkResponse]
  · intro fs hs B hcl
    simp only [do_POST, show (rstripSlash "/save-embed" == "/save-embed") = true from by decide,
      if_true, hcl]
    simp [mkResponse]

/-- Witness for C10: the three cases at concrete requests — body `[7, 8]`
with `Content-Length: 1`, an absent header, and an unparseable header. -/
theorem save_embed_content_length_cases_witness :
    ((do_POST [] ⟨"POST", "/save-embed", [("Content-Length", "1")], [7, 8]⟩).1 =
        fsWrite [] OUT_PATH ([7, 8].take (1 : Int).toNat) ∧
      fsRead (do_POST [] ⟨"POST", "/save-embed", [("Content-Length", "1")], [7, 8]⟩).1 OUT_PATH =
        some ([7, 8].take (1 : Int).toNat) ∧
      (do_POST [] ⟨"POST", "/save-embed", [("Content-Length", "1")], [7, 8]⟩).2.status = 200 ∧
      (do_POST [] ⟨"POST", "/save-embed", [("Content-Length", "1")], [7, 8]⟩).2.body =
        Body.saveOk OUT_PATH) ∧
    ((do_POST [] ⟨"POST", "/save-embed", [], [7, 8]⟩).1 = fsWrite [] OUT_PATH [] ∧
      fsRead (do_POST [] ⟨"POST", "/save-embed", [], [7, 8]⟩).1 OUT_PATH = some [] ∧
      (do_POST [] ⟨"POST", "/save-embed", [], [7, 8]⟩).2.status = 200 ∧
      (do_POST [] ⟨"POST", "/save-embed", [], [7, 8]⟩).2.body = Body.saveOk OUT_PATH) ∧
    ((do_POST [] ⟨"POST", "/save-embed", [("Content-Length", "abc")], [7, 8]⟩).1 = [] ∧
      (do_POST [] ⟨"POST", "/save-embed", [("Content-Length", "abc")], [7, 8]⟩).2.status = 500 ∧
      (do_POST [] ⟨"POST", "/save-embed", [("Content-Length", "abc")], [7, 8]⟩).2.body =
        Body.saveErr (headerGetD [("Content-Length", "abc")] "Content-Length" "0")) :=
  ⟨save_embed_content_length_cases.1 [] [("Content-Length", "1")] [7, 8] 1
      (by decide) (by decide),
    save_embed_content_length_cases.2.1 [] [] [7, 8] (by decide),
    save_embed_content_length_cases.2.2 [] [("Content-Length", "abc")] [7, 8] (by decide)⟩

/-- C3 counterexample: when the initial write (cycle 0) fails, the updater
thread crashes after that single cycle and attempts no further cycles, even
though the stop signal is never set and fuel remains — contradicting the
claim that an error in the initial cycle is logged and the schedule
continues. -/
theorem updater_initial_failure_stops_schedule :
    run_updater (fun _ => false) (fun _ => false) 3 = ([(0, false)], true) := rfl

/-- C3 amended: provided the initial startup write succeeds, a failure in
any scheduled loop cycle is contained — the thread never crashes and the set
of attempted cycles is exactly the one of a failure-free run. (The initial
write itself is performed outside the `try/except`, so its failure
terminates the updater.) -/
theorem updater_loop_failures_contained (ok stop : Nat → Bool) (fuel : Nat)
    (h : ok 0 = true) :
    (run_updater ok stop fuel).2 = false ∧
    (run_updater ok stop fuel).1.map Prod.fst =
      (run_updater (fun _ => true) stop fuel).1.map Prod.fst := by
  simp [run_updater, h, (updaterLoop_contained ok stop fuel 1).1,
    (updaterLoop_contained ok stop fuel 1).2]

/-- Witness for the amended C3: the first cycle succeeds, every later cycle
fails, the stop signal arrives before iteration 3. -/
theorem updater_loop_failures_contained_witness :
    (run_updater (fun k => k == 0) (fun k => k == 3) 5).2 = false ∧
    (run_updater (fun k => k == 0) (fun k => k == 3) 5).1.map Prod.fst =
      (run_updater (fun _ => true) (fun k => k == 3) 5).1.map Prod.fst :=
  updater_loop_failures_contained (fun k => k == 0) (fun k => k == 3) 5 rfl

/-- C7: if the stop signal is set at time `t` while the loop is inside a
wait that started at `now` (so `now ≤ t < now + interval`), the wait returns
`true` at time `t` exactly — after `t - now < interval` time, not the full
interval — and no generation cycle of the whole loop starts after `t`. -/
theorem stop_signal_prompt_exit (dur : Nat → Nat) (t interval fuel k now : Nat)
    (h1 : now ≤ t) (h2 : t < now + interval) :
    eventWait (some t) now interval = (true, t) ∧
    ∀ s ∈ (timedLoop dur (some t) interval fuel k now).1, s ≤ t := by
  refine ⟨?_, timedLoop_starts_le dur t interval fuel k now⟩
  simp [eventWait, h2, Nat.max_eq_right h1]

/-- Witness for C7: signal at time 5 during a wait started at time 3 with
interval 10. -/
theorem stop_signal_prompt_exit_witness :
    eventWait (some 5) 3 10 = (true, 5) ∧
    ∀ s ∈ (timedLoop (fun _ => 1) (some 5) 10 3 0 3).1, s ≤ 5 :=
  stop_signal_prompt_exit (fun _ => 1) 5 10 3 0 3 (by decide) (by decide)

end ElectionServer
